import Mathlib

/-
Verification development for the docker-management-api repository
(src/app.py).  The container-runtime boundary (Docker CLI invocations) is
modelled by an oracle structure `Docker` whose fields give the outcome of
each kind of CLI call made by the code; the Flask handlers become pure
functions from the oracle, the in-memory registry `project_containers`
and the parsed request body to a response, the updated registry and a
trace of the runtime-mutating commands that were issued.
-/

namespace DockerMgmt

/-! ## Python dict operations (string-keyed, insertion ordered)

`project_containers` and the request `environment` are Python dicts.  A
dict with unique keys is modelled as an association list in insertion
order; `dictInsert` is `d[k] = v` (in-place value update when the key is
present, append otherwise), `dictErase` is `del d[k]`, `dictGet?` is
`d.get(k)` / `d[k]` and key membership. -/

def dictGet? {α : Type} : List (String × α) → String → Option α
  | [], _ => none
  | (k0, v0) :: rest, key => if k0 == key then some v0 else dictGet? rest key

def dictInsert {α : Type} : List (String × α) → String → α → List (String × α)
  | [], key, val => [(key, val)]
  | (k0, v0) :: rest, key, val =>
    if k0 == key then (k0, val) :: rest else (k0, v0) :: dictInsert rest key val

def dictErase {α : Type} : List (String × α) → String → List (String × α)
  | [], _ => []
  | (k0, v0) :: rest, key =>
    if k0 == key then dictErase rest key else (k0, v0) :: dictErase rest key

/-! ## String helpers

`strTrim` models Python's `str.strip()` (drop leading and trailing
whitespace); `strContains s pat` models Python's `pat in s` substring
test (used for the "No such container" check in `stop_container`). -/

def dropLeadingWs : List Char → List Char
  | [] => []
  | c :: cs => if c.isWhitespace then dropLeadingWs cs else c :: cs

def strTrim (s : String) : String :=
  String.mk (dropLeadingWs ((dropLeadingWs s.data.reverse).reverse))

def listStartsWith : List Char → List Char → Bool
  | _, [] => true
  | [], _ :: _ => false
  | c :: cs, p :: ps => (c == p) && listStartsWith cs ps

def listHasInfix : List Char → List Char → Bool
  | [], pat => pat.isEmpty
  | c :: cs, pat => listStartsWith (c :: cs) pat || listHasInfix cs pat

def strContains (s pat : String) : Bool :=
  listHasInfix s.data pat.data

/-- The first character of the list, if any, is not whitespace. -/
def noLeadingWsL : List Char → Bool
  | [] => true
  | c :: _ => !c.isWhitespace

/-- The string carries no leading whitespace. -/
def noLeadingWs (s : String) : Bool := noLeadingWsL s.data

/-- The string carries no trailing whitespace. -/
def noTrailingWs (s : String) : Bool := noLeadingWsL s.data.reverse

/-! ## run_docker_command (app.py lines 123-149)

`subprocess.run(command, capture_output=True, text=True, check=True)`
has three relevant outcomes: the process ran and exited 0, the process
ran and exited non-zero (`CalledProcessError`, carrying the captured
streams), or the spawn itself failed with some other exception `e`
(message `str(e)`).  `run_docker_command` maps each to a
`{success, output, error}` dict and never propagates the exception. -/

inductive SubprocessOutcome where
  | completedZero (stdout stderr : String)
  | completedNonzero (stdout stderr : String)
  | spawnFailure (message : String)
deriving DecidableEq

structure DockerResult where
  success : Bool
  output : String
  error : String
deriving DecidableEq

def run_docker_command : SubprocessOutcome → DockerResult
  | SubprocessOutcome.completedZero o e => ⟨true, strTrim o, strTrim e⟩
  | SubprocessOutcome.completedNonzero o e => ⟨false, strTrim o, strTrim e⟩
  | SubprocessOutcome.spawnFailure m => ⟨false, "", m⟩

/-! ## Request-body payloads

`request.get_json(silent=True) or {}` gives a JSON object; the handler
reads `environment`, `volumes`, `ports`, `command` from it.  The
`environment` value may be any JSON value; app.py lines 485-488 replace
a non-dict value with `{}`.  The `command` value is absent, a string or
a list (line 240 tests Python truthiness, lines 242-246 dispatch on the
type).  A volume target is either a path string or the Docker-SDK style
dict, whose `bind` entry is used (line 223-224, `.get("bind", "")`). -/

inductive EnvField where
  | dict (kvs : List (String × String))
  | str (s : String)
  | list (xs : List String)
  | num (n : Int)
deriving DecidableEq

def envOfField : EnvField → List (String × String)
  | EnvField.dict kvs => kvs
  | EnvField.str _ => []
  | EnvField.list _ => []
  | EnvField.num _ => []

inductive CmdVal where
  | absent
  | str (s : String)
  | list (xs : List String)
deriving DecidableEq

def cmdTokens : CmdVal → List String
  | CmdVal.absent => []
  | CmdVal.str s => if s == "" then [] else [s]
  | CmdVal.list xs => if xs.isEmpty then [] else xs

inductive VolTarget where
  | path (p : String)
  | sdkDict (bind : String)
deriving DecidableEq

def volTargetPath : VolTarget → String
  | VolTarget.path p => p
  | VolTarget.sdkDict b => b

structure ReqBody where
  environment : EnvField
  volumes : List (String × VolTarget)
  ports : List (String × String)
  command : CmdVal
deriving DecidableEq

/-! ## The Docker oracle and effect traces

`inspect h` is the combined outcome of `get_container_status h`
(app.py lines 274-312): `none` covers a failed `docker inspect`, an
empty inspect result and a JSON parse failure; `some info` carries the
fields the handlers read.  `reinspect` is the outcome of a second
inspect of the same handle later in the same request (after a `docker
start` or a fresh `docker run`).  `runOutcome argv` is the result of
`run_docker_command argv` for a `docker run` invocation (`ok` carries
`result["output"]`), `startOk` the success of `docker start`,
`stopOutcome` / `rmOutcome` the results of `docker stop` / `docker rm`
(`error` carries the stripped stderr).  The trace records every
runtime-mutating CLI call the handler issues. -/

structure InspectInfo where
  status : String
  created : String
  env : List String
deriving DecidableEq

structure Docker where
  daemonRunning : Bool
  baseImageOk : Bool
  inspect : String → Option InspectInfo
  reinspect : String → Option InspectInfo
  startOk : String → Bool
  runOutcome : List String → Except String String
  stopOutcome : String → Except String Unit
  rmOutcome : String → Except String Unit

inductive Eff where
  | ranContainer (argv : List String)
  | startedContainer (container_id : String)
  | stoppedContainer (container_id : String)
  | removedContainer (container_id : String)
deriving DecidableEq

abbrev Registry := List (String × String)

/-- JSON values appearing in the response bodies the claims inspect:
strings, and the `environment` arrays echoed from `docker inspect`. -/
inductive J where
  | s (v : String)
  | arr (vs : List String)
deriving DecidableEq

structure Resp where
  code : Nat
  body : List (String × J)
deriving DecidableEq

def hasKey (body : List (String × J)) (k : String) : Bool :=
  (dictGet? body k).isSome

/-- `USER_CONTAINER_TEMPLATE` (app.py line 24): process-wide base-image
reference, read from the environment once at startup; the default value
stands in for whatever the environment supplied. -/
def USER_CONTAINER_TEMPLATE : String :=
  "username/USER_CONTAINER_TEMPLATE_NOT_FOUND:latest"

def daemonErrorResp : Resp :=
  ⟨500, [("status", J.s ("error")),
         ("message", J.s ("Could not connect to Docker daemon. Please ensure Docker is running."))]⟩

/-! ## run_container (app.py lines 186-271) -/

/-- The argv of the `docker run` invocation assembled in app.py lines
206-246 from the already-merged environment, the port map (value:key
order, line 219), the volume map and the command payload. -/
def buildRunArgv (project_id : String) (environment : List (String × String))
    (ports : List (String × String)) (volumes : List (String × VolTarget))
    (command : CmdVal) : List String :=
  [("docker"), ("run"), ("-d"), ("--name"), ("project-") ++ project_id]
  ++ environment.foldr (fun kv acc => ("-e") :: (kv.fst ++ ("=") ++ kv.snd) :: acc) []
  ++ ports.foldr (fun pp acc => ("-p") :: (pp.snd ++ (":") ++ pp.fst) :: acc) []
  ++ volumes.foldr (fun hv acc => ("-v") :: (hv.fst ++ (":") ++ volTargetPath hv.snd) :: acc) []
  ++ [("--label"), ("project_id=") ++ project_id, ("--label"), ("managed_by=agent_name_tbd")]
  ++ [("--restart"), ("unless-stopped")]
  ++ [USER_CONTAINER_TEMPLATE]
  ++ cmdTokens command

/-- app.py lines 186-271.  Sets `environment["PROJECT_ID"] =
str(project_id)` (line 197; `project_id` is already a string), checks
the base image, issues `docker run` and returns the stripped output as
the container id.  The best-effort status check at lines 262-266 only
logs and does not alter the result, so it is omitted.  The returned
trace records the `docker run` call. -/
def run_container (dk : Docker) (project_id : String)
    (environment : List (String × String)) (ports : List (String × String))
    (volumes : List (String × VolTarget)) (command : CmdVal) :
    Except String String × List Eff :=
  let environment := dictInsert environment ("PROJECT_ID") project_id
  if dk.baseImageOk = false then
    (Except.error (("Failed to ensure base image ") ++ USER_CONTAINER_TEMPLATE ++ (" exists")), [])
  else
    let argv := buildRunArgv project_id environment ports volumes command
    match dk.runOutcome argv with
    | Except.error e => (Except.error (("Failed to run container: ") ++ e), [Eff.ranContainer argv])
    | Except.ok out => (Except.ok (strTrim out), [Eff.ranContainer argv])

/-! ## create_or_run_container (app.py lines 385-534) -/

/-- app.py lines 474-527: the fresh-run tail of the handler, reached
when the project is unregistered, its handle fails to inspect, or a
restart attempt fails.  Reads the body, coerces a non-dict
`environment` to `{}` (lines 486-488), injects `PROJECT_ID` (line 491),
runs the container, and on success stores the new handle under
`project_id` (line 513) and answers 201; on failure answers 500 with
the registry untouched.  `effs0` carries the CLI calls already issued
by the dispatching code. -/
def fresh_run_step (dk : Docker) (reg : Registry) (project_id : String)
    (b : ReqBody) (effs0 : List Eff) : Resp × Registry × List Eff :=
  let environment := dictInsert (envOfField b.environment) ("PROJECT_ID") project_id
  let rr := run_container dk project_id environment b.ports b.volumes b.command
  match rr.fst with
  | Except.error e =>
      (⟨500, [("status", J.s ("error")), ("message", J.s e)]⟩, reg, effs0 ++ rr.snd)
  | Except.ok container_id =>
      let reg2 := dictInsert reg project_id container_id
      let status_result := dk.reinspect container_id
      (⟨201,
        [("status", J.s ("success")),
         ("message", J.s (("Container created for project ") ++ project_id)),
         ("project_id", J.s project_id),
         ("container_id", J.s container_id),
         ("base_image", J.s USER_CONTAINER_TEMPLATE),
         ("container_status", J.s (match status_result with
            | some i => i.status
            | none => "unknown")),
         ("environment", match status_result with
            | some i => J.arr i.env
            | none => J.arr [])]⟩,
       reg2, effs0 ++ rr.snd)

/-- app.py lines 385-534, `POST /api/containers/(project_id)`.  After
the daemon and base-image guards: if the project is registered, inspect
the stored handle; inspect failure falls through to a fresh run (line
470-472) as does a failed `docker start` (lines 457-459); a
non-running container is started and its refreshed status returned with
200 (lines 444-456); a running container is reported as-is with 200
(lines 460-469).  Unregistered projects go straight to the fresh run. -/
def create_or_run_container (dk : Docker) (reg : Registry) (project_id : String)
    (b : ReqBody) : Resp × Registry × List Eff :=
  if dk.daemonRunning = false then (daemonErrorResp, reg, [])
  else if dk.baseImageOk = false then
    (⟨500, [("status", J.s ("error")),
            ("message", J.s (("Base Docker image ") ++ USER_CONTAINER_TEMPLATE
              ++ (" not available. Check your registry access.")))]⟩,
     reg, [])
  else
    match dictGet? reg project_id with
    | some container_id =>
      match dk.inspect container_id with
      | some status_result =>
        if status_result.status != "running" then
          if dk.startOk container_id then
            let new_status := dk.reinspect container_id
            (⟨200,
              [("status", J.s ("success")),
               ("message", J.s (("Container for project ") ++ project_id ++ (" restarted"))),
               ("container_id", J.s container_id),
               ("container_status", J.s (match new_status with
                  | some i => i.status
                  | none => "unknown")),
               ("environment", match new_status with
                  | some i => J.arr i.env
                  | none => J.arr [])]⟩,
             reg, [Eff.startedContainer container_id])
          else
            fresh_run_step dk reg project_id b [Eff.startedContainer container_id]
        else
          (⟨200,
            [("status", J.s ("success")),
             ("message", J.s (("Container for project ") ++ project_id
               ++ (" is already running"))),
             ("container_id", J.s container_id),
             ("container_status", J.s status_result.status),
             ("environment", J.arr status_result.env)]⟩,
           reg, [])
      | none => fresh_run_step dk reg project_id b []
    | none => fresh_run_step dk reg project_id b []

/-! ## stop_and_remove_container / stop_container (app.py lines 315-335, 537-621) -/

/-- app.py lines 315-335: `docker stop` then `docker rm`; if the stop
fails the rm is not attempted and the stop error is returned. -/
def stop_and_remove_container (dk : Docker) (container_id : String) :
    Except String Unit × List Eff :=
  match dk.stopOutcome container_id with
  | Except.error e =>
      (Except.error (("Failed to stop container: ") ++ e), [Eff.stoppedContainer container_id])
  | Except.ok _ =>
    match dk.rmOutcome container_id with
    | Except.error e =>
        (Except.error (("Failed to remove container: ") ++ e),
         [Eff.stoppedContainer container_id, Eff.removedContainer container_id])
    | Except.ok _ =>
        (Except.ok (), [Eff.stoppedContainer container_id, Eff.removedContainer container_id])

/-- app.py lines 537-621, `DELETE /api/containers/(project_id)`:
404 when unregistered; on a successful stop+remove the entry is
deleted and 200 returned; on a failure whose message contains
"No such container" the entry is deleted anyway and 200 with status
"warning" returned (lines 602-609); any other failure is 500 with the
entry retained. -/
def stop_container (dk : Docker) (reg : Registry) (project_id : String) :
    Resp × Registry × List Eff :=
  if dk.daemonRunning = false then (daemonErrorResp, reg, [])
  else
    match dictGet? reg project_id with
    | none =>
      (⟨404, [("status", J.s ("error")),
              ("message", J.s (("No container found for project ") ++ project_id))]⟩,
       reg, [])
    | some container_id =>
      let sr := stop_and_remove_container dk container_id
      match sr.fst with
      | Except.ok _ =>
        (⟨200, [("status", J.s ("success")),
                ("message", J.s (("Container for project ") ++ project_id
                  ++ (" stopped and removed")))]⟩,
         dictErase reg project_id, sr.snd)
      | Except.error err =>
        if strContains err ("No such container") then
          (⟨200, [("status", J.s ("warning")),
                  ("message", J.s (("Container for project ") ++ project_id
                    ++ (" not found in Docker, but record cleaned")))]⟩,
           dictErase reg project_id, sr.snd)
        else
          (⟨500, [("status", J.s ("error")), ("message", J.s err)]⟩, reg, sr.snd)

/-! ## list_containers (app.py lines 624-681) and the status endpoint -/

structure ListResp where
  code : Nat
  status : String
  message : String
  containers : List (String × List (String × J))
deriving DecidableEq

/-- app.py lines 652-669: the per-project record built while iterating
the registry; an entry whose handle fails to inspect is reported with
status `not_found` (and is not removed). -/
def listEntry (dk : Docker) (container_id : String) : List (String × J) :=
  match dk.inspect container_id with
  | some i =>
      [("container_id", J.s container_id),
       ("base_image", J.s USER_CONTAINER_TEMPLATE),
       ("status", J.s i.status),
       ("created", J.s i.created),
       ("environment", J.arr i.env)]
  | none =>
      [("container_id", J.s container_id),
       ("base_image", J.s USER_CONTAINER_TEMPLATE),
       ("status", J.s ("not_found")),
       ("error", J.s ("Container exists in records but not in Docker"))]

/-- app.py lines 624-681, `GET /api/containers`: one record per
registry entry; the registry itself is never written. -/
def list_containers (dk : Docker) (reg : Registry) : ListResp × Registry :=
  if dk.daemonRunning = false then
    (⟨500, "error",
      "Could not connect to Docker daemon. Please ensure Docker is running.", []⟩, reg)
  else
    (⟨200, "success", "", reg.map (fun pc => (pc.fst, listEntry dk pc.snd))⟩, reg)

/-- app.py lines 684-754, `GET /api/containers/(project_id)`: reads the
registry and the runtime, never writes the registry (a stale entry is
reported with 404 but left in place). -/
def get_container_status_endpoint (dk : Docker) (reg : Registry)
    (project_id : String) : Resp × Registry :=
  if dk.daemonRunning = false then (daemonErrorResp, reg)
  else
    match dictGet? reg project_id with
    | none =>
      (⟨404, [("status", J.s ("error")),
              ("message", J.s (("No container found for project ") ++ project_id))]⟩, reg)
    | some container_id =>
      match dk.inspect container_id with
      | some cs =>
        (⟨200, [("status", J.s ("success")),
                ("project_id", J.s project_id),
                ("container_id", J.s container_id),
                ("base_image", J.s USER_CONTAINER_TEMPLATE),
                ("container_status", J.s cs.status),
                ("created", J.s cs.created),
                ("environment", J.arr cs.env)]⟩, reg)
      | none =>
        (⟨404, [("status", J.s ("error")),
                ("message", J.s (("Container for project ") ++ project_id
                  ++ (" exists in records but not in Docker")))]⟩, reg)

/-! ## Concrete fixtures used by witnesses and counterexamples -/

def infoRunning : InspectInfo :=
  ⟨"running", "2024-01-01T00:00:00Z", ["PROJECT_ID=p1"]⟩

def infoExited : InspectInfo :=
  ⟨"exited", "2024-01-01T00:00:00Z", ["PROJECT_ID=p1"]⟩

def dkRunning : Docker :=
  { daemonRunning := true
    baseImageOk := true
    inspect := fun _ => some infoRunning
    reinspect := fun _ => some infoRunning
    startOk := fun _ => true
    runOutcome := fun _ => Except.ok ("abc123\n")
    stopOutcome := fun _ => Except.ok ()
    rmOutcome := fun _ => Except.ok () }

def dkStale : Docker :=
  { daemonRunning := true
    baseImageOk := true
    inspect := fun _ => none
    reinspect := fun _ => some infoRunning
    startOk := fun _ => false
    runOutcome := fun _ => Except.ok ("abc123\n")
    stopOutcome := fun _ => Except.ok ()
    rmOutcome := fun _ => Except.ok () }

def dkRunFails : Docker :=
  { daemonRunning := true
    baseImageOk := true
    inspect := fun _ => none
    reinspect := fun _ => none
    startOk := fun _ => false
    runOutcome := fun _ => Except.error ("name already in use")
    stopOutcome := fun _ => Except.ok ()
    rmOutcome := fun _ => Except.ok () }

def dkStopNoSuch : Docker :=
  { daemonRunning := true
    baseImageOk := true
    inspect := fun _ => none
    reinspect := fun _ => none
    startOk := fun _ => false
    runOutcome := fun _ => Except.ok ("abc123\n")
    stopOutcome := fun _ => Except.error ("Error response from daemon: No such container: c1")
    rmOutcome := fun _ => Except.ok () }

def dkStopFails : Docker :=
  { daemonRunning := true
    baseImageOk := true
    inspect := fun _ => none
    reinspect := fun _ => none
    startOk := fun _ => false
    runOutcome := fun _ => Except.ok ("abc123\n")
    stopOutcome := fun _ => Except.error ("permission denied")
    rmOutcome := fun _ => Except.ok () }

def bodyEmpty : ReqBody :=
  ⟨EnvField.dict [], [], [], CmdVal.absent⟩

def bodySpoof : ReqBody :=
  ⟨EnvField.dict [("PROJECT_ID", "spoofed"), ("FOO", "bar")], [], [], CmdVal.absent⟩

/-! ## Lemmas about the dict operations -/

theorem dictGet?_insert_self {α : Type} (d : List (String × α)) (k : String) (v : α) :
    dictGet? (dictInsert d k v) k = some v := by
  induction d with
  | nil => simp [dictInsert, dictGet?]
  | cons p rest ih =>
    rcases p with ⟨k0, v0⟩
    by_cases h : k0 = k
    · subst h; simp [dictInsert, dictGet?]
    · simp [dictInsert, dictGet?, h, ih]

theorem dictGet?_insert_ne {α : Type} (d : List (String × α)) (k k2 : String) (v : α)
    (h : k2 ≠ k) : dictGet? (dictInsert d k v) k2 = dictGet? d k2 := by
  induction d with
  | nil => simp [dictInsert, dictGet?, Ne.symm h]
  | cons p rest ih =>
    rcases p with ⟨k0, v0⟩
    by_cases h0 : k0 = k
    · subst h0
      simp [dictInsert, dictGet?, Ne.symm h]
    · simp only [dictInsert]
      rw [if_neg (by simp [h0])]
      simp [dictGet?, ih]

theorem dictInsert_idem {α : Type} (d : List (String × α)) (k : String) (v : α) :
    dictInsert (dictInsert d k v) k v = dictInsert d k v := by
  induction d with
  | nil => simp [dictInsert]
  | cons p rest ih =>
    rcases p with ⟨k0, v0⟩
    by_cases h : k0 = k
    · subst h; simp [dictInsert]
    · simp [dictInsert, h, ih]

theorem dictGet?_erase_self {α : Type} (d : List (String × α)) (k : String) :
    dictGet? (dictErase d k) k = none := by
  induction d with
  | nil => simp [dictErase, dictGet?]
  | cons p rest ih =>
    rcases p with ⟨k0, v0⟩
    by_cases h : k0 = k
    · subst h; simp [dictErase, ih]
    · simp [dictErase, dictGet?, h, ih]

/-! ## Lemmas about trimming -/

theorem dropLeadingWs_head (l : List Char) (c : Char) (cs : List Char)
    (h : dropLeadingWs l = c :: cs) : c.isWhitespace = false := by
  induction l with
  | nil => simp [dropLeadingWs] at h
  | cons c0 cs0 ih =>
    by_cases hws : c0.isWhitespace
    · exact ih (by simpa [dropLeadingWs, hws] using h)
    · simp only [dropLeadingWs, if_neg hws] at h
      injection h with h1 h2
      subst h1
      simpa using hws

theorem dropLeadingWs_suffix (l : List Char) : ∃ p, l = p ++ dropLeadingWs l := by
  induction l with
  | nil => exact ⟨[], rfl⟩
  | cons c cs ih =>
    by_cases hws : c.isWhitespace
    · obtain ⟨p, hp⟩ := ih
      refine ⟨c :: p, ?_⟩
      simp only [dropLeadingWs, if_pos hws, List.cons_append]
      exact congrArg (List.cons c) hp
    · exact ⟨[], by simp [dropLeadingWs, hws]⟩

theorem trimmedL_noWs (r : List Char) :
    noLeadingWsL (dropLeadingWs ((dropLeadingWs r).reverse)) = true ∧
    noLeadingWsL (dropLeadingWs ((dropLeadingWs r).reverse)).reverse = true := by
  constructor
  · cases ht : dropLeadingWs ((dropLeadingWs r).reverse) with
    | nil => rfl
    | cons c cs => simp [noLeadingWsL, dropLeadingWs_head _ c cs ht]
  · obtain ⟨p, hp⟩ := dropLeadingWs_suffix ((dropLeadingWs r).reverse)
    cases htr : (dropLeadingWs ((dropLeadingWs r).reverse)).reverse with
    | nil => rfl
    | cons d ds =>
      have h2 : dropLeadingWs r = d :: (ds ++ p.reverse) := by
        have hur : ((dropLeadingWs r).reverse).reverse = dropLeadingWs r :=
          List.reverse_reverse _
        rw [← hur]
        conv_lhs => rw [hp]
        rw [List.reverse_append, htr]
        simp
      have h3 := dropLeadingWs_head r d (ds ++ p.reverse) h2
      simp [noLeadingWsL, h3]

/-- Output of `strTrim` has no leading and no trailing whitespace. -/
theorem strTrim_noWs (x : String) :
    noLeadingWs (strTrim x) = true ∧ noTrailingWs (strTrim x) = true :=
  ⟨(trimmedL_noWs x.data.reverse).1, (trimmedL_noWs x.data.reverse).2⟩

/-! ## Case analysis of the fresh-run tail -/

/-- The fresh-run tail of `create_or_run_container` either fails with a
500 error body and leaves the registry untouched, or answers 201 after
a successful `docker run`, storing the trimmed run output under the
project key; the 201 body carries the created-response fields. -/
theorem fresh_run_spec (dk : Docker) (reg : Registry) (pid : String) (b : ReqBody)
    (effs0 : List Eff) :
    (∃ e, (fresh_run_step dk reg pid b effs0).fst =
        ⟨500, [("status", J.s ("error")), ("message", J.s e)]⟩ ∧
      (fresh_run_step dk reg pid b effs0).snd.fst = reg) ∨
    (∃ a out, dk.runOutcome a = Except.ok out ∧
      (fresh_run_step dk reg pid b effs0).fst.code = 201 ∧
      (fresh_run_step dk reg pid b effs0).snd.fst = dictInsert reg pid (strTrim out) ∧
      dictGet? (fresh_run_step dk reg pid b effs0).fst.body ("status") =
        some (J.s ("success")) ∧
      hasKey (fresh_run_step dk reg pid b effs0).fst.body ("project_id") = true ∧
      hasKey (fresh_run_step dk reg pid b effs0).fst.body ("container_id") = true ∧
      hasKey (fresh_run_step dk reg pid b effs0).fst.body ("container_status") = true ∧
      hasKey (fresh_run_step dk reg pid b effs0).fst.body ("environment") = true) := by
  by_cases hi : dk.baseImageOk = false
  · left
    refine ⟨("Failed to ensure base image ") ++ USER_CONTAINER_TEMPLATE ++ (" exists"), ?_, ?_⟩ <;>
      simp [fresh_run_step, run_container, hi]
  · simp only [fresh_run_step, run_container, hi]
    cases hro : dk.runOutcome (buildRunArgv pid
        (dictInsert (dictInsert (envOfField b.environment) ("PROJECT_ID") pid) ("PROJECT_ID") pid)
        b.ports b.volumes b.command) with
    | error e =>
      left
      exact ⟨("Failed to run container: ") ++ e, by simp [hro], by simp [hro]⟩
    | ok out =>
      right
      refine ⟨_, out, hro, ?_, ?_, ?_, ?_, ?_, ?_, ?_⟩ <;>
        simp [hro, hasKey, dictGet?]

/-! ## Claim C8 -/

/-- C8 counterexample: the claim asserts that in every case the
returned stdout and stderr carry no leading or trailing whitespace, but
on the spawn-failure path (app.py line 148) the synthesized message
`str(e)` is returned without `.strip()`: an exception whose message is
" synthesized " yields an error string with both leading and trailing
whitespace. -/
theorem C8_counterexample :
    (run_docker_command (SubprocessOutcome.spawnFailure (" synthesized "))).success = false ∧
    (run_docker_command (SubprocessOutcome.spawnFailure (" synthesized "))).error =
      (" synthesized ") ∧
    noLeadingWs (run_docker_command (SubprocessOutcome.spawnFailure (" synthesized "))).error
      = false ∧
    noTrailingWs (run_docker_command (SubprocessOutcome.spawnFailure (" synthesized "))).error
      = false := by
  decide

/-- C8 (amended): the runtime command executor never throws; a zero
exit yields succeeded=true, a non-zero exit or spawn failure yields
succeeded=false; stdout and stderr of an executed process are the
trimmed captured streams (hence carry no leading or trailing
whitespace), while a spawn failure yields empty stdout and the
synthesized exception message verbatim — untrimmed — as stderr. -/
theorem C8_executor_outcomes (o e m : String) :
    run_docker_command (SubprocessOutcome.completedZero o e) =
      ⟨true, strTrim o, strTrim e⟩ ∧
    run_docker_command (SubprocessOutcome.completedNonzero o e) =
      ⟨false, strTrim o, strTrim e⟩ ∧
    run_docker_command (SubprocessOutcome.spawnFailure m) = ⟨false, "", m⟩ ∧
    noLeadingWs (run_docker_command (SubprocessOutcome.completedZero o e)).output = true ∧
    noTrailingWs (run_docker_command (SubprocessOutcome.completedZero o e)).output = true ∧
    noLeadingWs (run_docker_command (SubprocessOutcome.completedZero o e)).error = true ∧
    noTrailingWs (run_docker_command (SubprocessOutcome.completedZero o e)).error = true ∧
    noLeadingWs (run_docker_command (SubprocessOutcome.completedNonzero o e)).output = true ∧
    noTrailingWs (run_docker_command (SubprocessOutcome.completedNonzero o e)).output = true ∧
    noLeadingWs (run_docker_command (SubprocessOutcome.completedNonzero o e)).error = true ∧
    noTrailingWs (run_docker_command (SubprocessOutcome.completedNonzero o e)).error = true :=
  ⟨rfl, rfl, rfl,
   (strTrim_noWs o).1, (strTrim_noWs o).2, (strTrim_noWs e).1, (strTrim_noWs e).2,
   (strTrim_noWs o).1, (strTrim_noWs o).2, (strTrim_noWs e).1, (strTrim_noWs e).2⟩

/-! ## Claim C9 -/

/-- C9: a request whose `environment` payload is not a dictionary (a
string, list or number) is not rejected: the payload is coerced to the
empty mapping before `PROJECT_ID` injection, and `create_or_run_container`
behaves exactly as if an empty environment dict had been supplied. -/
theorem C9_nondict_env_coerced (dk : Docker) (reg : Registry) (pid s : String)
    (xs : List String) (n : Int) (vols : List (String × VolTarget))
    (ports : List (String × String)) (c : CmdVal) :
    envOfField (EnvField.str s) = [] ∧
    envOfField (EnvField.list xs) = [] ∧
    envOfField (EnvField.num n) = [] ∧
    create_or_run_container dk reg pid ⟨EnvField.str s, vols, ports, c⟩ =
      create_or_run_container dk reg pid ⟨EnvField.dict [], vols, ports, c⟩ ∧
    create_or_run_container dk reg pid ⟨EnvField.list xs, vols, ports, c⟩ =
      create_or_run_container dk reg pid ⟨EnvField.dict [], vols, ports, c⟩ ∧
    create_or_run_container dk reg pid ⟨EnvField.num n, vols, ports, c⟩ =
      create_or_run_container dk reg pid ⟨EnvField.dict [], vols, ports, c⟩ :=
  ⟨rfl, rfl, rfl, rfl, rfl, rfl⟩

/-! ## Claim C10 -/

/-- C10: a falsy `command` value — the empty string or the empty list —
contributes no tokens to the `docker run` argv, exactly like an absent
command, so the image default entrypoint applies; a non-empty string is
appended as one token and a non-empty list element-wise. -/
theorem C10_falsy_command_like_absent (project_id : String)
    (env ports : List (String × String)) (volumes : List (String × VolTarget)) :
    buildRunArgv project_id env ports volumes (CmdVal.str ("")) =
      buildRunArgv project_id env ports volumes CmdVal.absent ∧
    buildRunArgv project_id env ports volumes (CmdVal.list []) =
      buildRunArgv project_id env ports volumes CmdVal.absent ∧
    (∀ s, s ≠ "" → buildRunArgv project_id env ports volumes (CmdVal.str s) =
      buildRunArgv project_id env ports volumes CmdVal.absent ++ [s]) ∧
    (∀ xs, xs ≠ ([] : List String) →
      buildRunArgv project_id env ports volumes (CmdVal.list xs) =
      buildRunArgv project_id env ports volumes CmdVal.absent ++ xs) := by
  refine ⟨by simp [buildRunArgv, cmdTokens], by simp [buildRunArgv, cmdTokens], ?_, ?_⟩
  · intro s hs
    simp [buildRunArgv, cmdTokens, hs]
  · intro xs hxs
    cases xs with
    | nil => exact absurd rfl hxs
    | cons a t => simp [buildRunArgv, cmdTokens]

/-- C10 witness: concrete instances of the non-empty cases. -/
theorem C10_witness :
    (("ls") ≠ "" ∧ buildRunArgv ("p") [] [] [] (CmdVal.str ("ls")) =
      buildRunArgv ("p") [] [] [] CmdVal.absent ++ [("ls")]) ∧
    ((["sh", "-c"]) ≠ ([] : List String) ∧
      buildRunArgv ("p") [] [] [] (CmdVal.list (["sh", "-c"])) =
      buildRunArgv ("p") [] [] [] CmdVal.absent ++ (["sh", "-c"])) :=
  ⟨⟨by decide, (C10_falsy_command_like_absent ("p") [] [] []).2.2.1 ("ls") (by decide)⟩,
   ⟨by decide, (C10_falsy_command_like_absent ("p") [] [] []).2.2.2 (["sh", "-c"]) (by decide)⟩⟩

/-! ## Claim C1 -/

/-- C1: when the project is registered and its stored handle inspects
successfully with status running, `create_or_run_container` answers 200
reporting that same handle and its current status, issues no
runtime-mutating command at all (in particular runs no new container),
and leaves the registry unchanged; consequently a second call right
after a first, with the runtime reporting the first container running,
returns the same handle and creates nothing. -/
theorem C1_already_running_reuses_handle (dk : Docker) (reg : Registry)
    (pid cid : String) (info : InspectInfo) (b : ReqBody)
    (hd : dk.daemonRunning = true) (hi : dk.baseImageOk = true)
    (hreg : dictGet? reg pid = some cid)
    (hins : dk.inspect cid = some info)
    (hst : info.status = "running") :
    (create_or_run_container dk reg pid b).fst.code = 200 ∧
    dictGet? (create_or_run_container dk reg pid b).fst.body ("status") =
      some (J.s ("success")) ∧
    dictGet? (create_or_run_container dk reg pid b).fst.body ("container_id") =
      some (J.s cid) ∧
    dictGet? (create_or_run_container dk reg pid b).fst.body ("container_status") =
      some (J.s info.status) ∧
    (create_or_run_container dk reg pid b).snd.fst = reg ∧
    (create_or_run_container dk reg pid b).snd.snd = [] := by
  simp [create_or_run_container, hd, hi, hreg, hins, hst, dictGet?]

/-- C1 witness: a registered project whose container is running. -/
theorem C1_witness :
    (create_or_run_container dkRunning [("p1", "c1")] ("p1") bodyEmpty).fst.code = 200 ∧
    dictGet? (create_or_run_container dkRunning [("p1", "c1")] ("p1") bodyEmpty).fst.body
      ("status") = some (J.s ("success")) ∧
    dictGet? (create_or_run_container dkRunning [("p1", "c1")] ("p1") bodyEmpty).fst.body
      ("container_id") = some (J.s ("c1")) ∧
    dictGet? (create_or_run_container dkRunning [("p1", "c1")] ("p1") bodyEmpty).fst.body
      ("container_status") = some (J.s infoRunning.status) ∧
    (create_or_run_container dkRunning [("p1", "c1")] ("p1") bodyEmpty).snd.fst =
      [("p1", "c1")] ∧
    (create_or_run_container dkRunning [("p1", "c1")] ("p1") bodyEmpty).snd.snd = [] :=
  C1_already_running_reuses_handle dkRunning [("p1", "c1")] ("p1") ("c1") infoRunning
    bodyEmpty rfl rfl (by decide) rfl rfl

/-! ## Claim C2 -/

/-- C2: when the stored handle of a registered project fails to
inspect, `create_or_run_container` proceeds to a fresh run (the trace
is exactly the `docker run` invocation — no prior delete of the stale
key); when that run succeeds the registry maps the projectId to the new
handle, the stale handle being discarded by the in-place overwrite,
and every other key is untouched. -/
theorem C2_stale_handle_overwritten (dk : Docker) (reg : Registry)
    (pid cid out : String) (b : ReqBody)
    (hd : dk.daemonRunning = true) (hi : dk.baseImageOk = true)
    (hreg : dictGet? reg pid = some cid)
    (hins : dk.inspect cid = none)
    (hrun : dk.runOutcome (buildRunArgv pid
        (dictInsert (envOfField b.environment) ("PROJECT_ID") pid)
        b.ports b.volumes b.command) = Except.ok out) :
    (create_or_run_container dk reg pid b).fst.code = 201 ∧
    (create_or_run_container dk reg pid b).snd.fst = dictInsert reg pid (strTrim out) ∧
    dictGet? (create_or_run_container dk reg pid b).snd.fst pid = some (strTrim out) ∧
    (∀ k, k ≠ pid →
      dictGet? (create_or_run_container dk reg pid b).snd.fst k = dictGet? reg k) ∧
    (create_or_run_container dk reg pid b).snd.snd =
      [Eff.ranContainer (buildRunArgv pid
        (dictInsert (envOfField b.environment) ("PROJECT_ID") pid)
        b.ports b.volumes b.command)] := by
  have key : create_or_run_container dk reg pid b = fresh_run_step dk reg pid b [] := by
    simp [create_or_run_container, hd, hi, hreg, hins]
  rw [key]
  simp only [fresh_run_step, run_container, hi]
  rw [dictInsert_idem, hrun]
  refine ⟨by simp, by simp, ?_, ?_, by simp⟩
  · simp [dictGet?_insert_self]
  · intro k hk
    simp [dictGet?_insert_ne reg pid k (strTrim out) hk]

/-- C2 witness: a stale registered handle, with the fresh run
succeeding and the registry overwritten to the trimmed new handle. -/
theorem C2_witness :
    (create_or_run_container dkStale [("p1", "c1"), ("p2", "c2")] ("p1") bodyEmpty).fst.code
      = 201 ∧
    (create_or_run_container dkStale [("p1", "c1"), ("p2", "c2")] ("p1") bodyEmpty).snd.fst =
      dictInsert [("p1", "c1"), ("p2", "c2")] ("p1") (strTrim ("abc123\n")) ∧
    dictGet? (create_or_run_container dkStale [("p1", "c1"), ("p2", "c2")] ("p1")
      bodyEmpty).snd.fst ("p1") = some (strTrim ("abc123\n")) ∧
    (∀ k, k ≠ ("p1") →
      dictGet? (create_or_run_container dkStale [("p1", "c1"), ("p2", "c2")] ("p1")
        bodyEmpty).snd.fst k = dictGet? [("p1", "c1"), ("p2", "c2")] k) ∧
    (create_or_run_container dkStale [("p1", "c1"), ("p2", "c2")] ("p1") bodyEmpty).snd.snd =
      [Eff.ranContainer (buildRunArgv ("p1")
        (dictInsert (envOfField bodyEmpty.environment) ("PROJECT_ID") ("p1"))
        bodyEmpty.ports bodyEmpty.volumes bodyEmpty.command)] :=
  C2_stale_handle_overwritten dkStale [("p1", "c1"), ("p2", "c2")] ("p1") ("c1")
    ("abc123\n") bodyEmpty rfl rfl (by decide) rfl rfl

/-! ## Claim C3 -/

/-- C3: registry lifecycle invariant — across all operations a project
key is added only by a `create_or_run_container` whose underlying
`docker run` succeeded (the new registry is an overwrite-insert of the
trimmed run output, answered 201); `stop_container` either leaves the
registry unchanged or deletes exactly the requested key; listing and
the status endpoint never change the registry; and when every run
invocation fails, `create_or_run_container` on an unregistered project
answers 500 with the registry exactly as before. -/
theorem C3_registry_lifecycle (dk : Docker) (reg : Registry) (pid : String) (b : ReqBody) :
    ((create_or_run_container dk reg pid b).snd.fst = reg ∨
      ((create_or_run_container dk reg pid b).fst.code = 201 ∧
       ∃ a out, dk.runOutcome a = Except.ok out ∧
         (create_or_run_container dk reg pid b).snd.fst = dictInsert reg pid (strTrim out))) ∧
    ((stop_container dk reg pid).snd.fst = reg ∨
      (stop_container dk reg pid).snd.fst = dictErase reg pid) ∧
    (list_containers dk reg).snd = reg ∧
    (get_container_status_endpoint dk reg pid).snd = reg ∧
    (dk.daemonRunning = true → dk.baseImageOk = true → dictGet? reg pid = none →
      (∀ a, ∃ e, dk.runOutcome a = Except.error e) →
      (create_or_run_container dk reg pid b).fst.code = 500 ∧
      (create_or_run_container dk reg pid b).snd.fst = reg) := by
  have hfr : ∀ effs0, (fresh_run_step dk reg pid b effs0).snd.fst = reg ∨
      ((fresh_run_step dk reg pid b effs0).fst.code = 201 ∧
       ∃ a out, dk.runOutcome a = Except.ok out ∧
         (fresh_run_step dk reg pid b effs0).snd.fst = dictInsert reg pid (strTrim out)) := by
    intro effs0
    rcases fresh_run_spec dk reg pid b effs0 with ⟨e, hfst, hsnd⟩ |
      ⟨a, out, hok, hc, hr, hrest⟩
    · exact Or.inl hsnd
    · exact Or.inr ⟨hc, a, out, hok, hr⟩
  refine ⟨?_, ?_, ?_, ?_, ?_⟩
  · by_cases hd : dk.daemonRunning = false
    · left; simp [create_or_run_container, hd]
    · by_cases hi : dk.baseImageOk = false
      · left; simp [create_or_run_container, hd, hi]
      · cases hg : dictGet? reg pid with
        | none =>
          rw [show create_or_run_container dk reg pid b = fresh_run_step dk reg pid b []
            from by simp [create_or_run_container, hd, hi, hg]]
          exact hfr []
        | some cid =>
          cases hins : dk.inspect cid with
          | none =>
            rw [show create_or_run_container dk reg pid b = fresh_run_step dk reg pid b []
              from by simp [create_or_run_container, hd, hi, hg, hins]]
            exact hfr []
          | some info =>
            by_cases hst : (info.status != "running") = true
            · by_cases hstart : dk.startOk cid = true
              · left; simp [create_or_run_container, hd, hi, hg, hins, hst, hstart]
              · rw [show create_or_run_container dk reg pid b =
                    fresh_run_step dk reg pid b [Eff.startedContainer cid]
                  from by simp [create_or_run_container, hd, hi, hg, hins, hst, hstart]]
                exact hfr [Eff.startedContainer cid]
            · left; simp [create_or_run_container, hd, hi, hg, hins, hst]
  · by_cases hd : dk.daemonRunning = false
    · left; simp [stop_container, hd]
    · cases hg : dictGet? reg pid with
      | none => left; simp [stop_container, hd, hg]
      | some cid =>
        cases hsr : (stop_and_remove_container dk cid).fst with
        | ok u => right; simp [stop_container, hd, hg, hsr]
        | error err =>
          by_cases hc : strContains err ("No such container") = true
          · right; simp [stop_container, hd, hg, hsr, hc]
          · left; simp [stop_container, hd, hg, hsr, hc]
  · by_cases hd : dk.daemonRunning = false <;> simp [list_containers, hd]
  · by_cases hd : dk.daemonRunning = false
    · simp [get_container_status_endpoint, hd]
    · cases hg : dictGet? reg pid with
      | none => simp [get_container_status_endpoint, hd, hg]
      | some cid =>
        cases hins : dk.inspect cid with
        | none => simp [get_container_status_endpoint, hd, hg, hins]
        | some info => simp [get_container_status_endpoint, hd, hg, hins]
  · intro hd hi hg hfail
    rw [show create_or_run_container dk reg pid b = fresh_run_step dk reg pid b []
      from by simp [create_or_run_container, hd, hi, hg]]
    rcases fresh_run_spec dk reg pid b [] with ⟨e, hfst, hsnd⟩ |
      ⟨a, out, hok, hc, hr, hrest⟩
    · exact ⟨by rw [hfst], hsnd⟩
    · obtain ⟨e2, he2⟩ := hfail a
      rw [he2] at hok
      exact absurd hok (by simp)

/-- C3 witness: with every run invocation failing, a create on an
unregistered project answers 500 and leaves the (empty) registry as
it was. -/
theorem C3_witness :
    (create_or_run_container dkRunFails [] ("p9") bodyEmpty).fst.code = 500 ∧
    (create_or_run_container dkRunFails [] ("p9") bodyEmpty).snd.fst = [] :=
  (C3_registry_lifecycle dkRunFails [] ("p9") bodyEmpty).2.2.2.2 rfl rfl rfl
    (fun _ => ⟨("name already in use"), rfl⟩)

/-! ## Claim C4 -/

/-- C4: `stop_container` answers 404 with the registry unchanged when
the project is unregistered; deletes the entry and answers 200
("success") when stop+remove succeeds — after which a second stop
answers 404; deletes the entry anyway and answers 200 ("warning") when
the failure message contains "No such container"; and retains the
entry answering 500 on any other failure. -/
theorem C4_stop_semantics (dk : Docker) (reg : Registry) (pid : String)
    (hd : dk.daemonRunning = true) :
    (dictGet? reg pid = none →
      (stop_container dk reg pid).fst.code = 404 ∧
      (stop_container dk reg pid).snd.fst = reg) ∧
    (∀ cid, dictGet? reg pid = some cid →
      ((stop_and_remove_container dk cid).fst = Except.ok () →
        (stop_container dk reg pid).fst.code = 200 ∧
        dictGet? (stop_container dk reg pid).fst.body ("status") = some (J.s ("success")) ∧
        (stop_container dk reg pid).snd.fst = dictErase reg pid ∧
        (stop_container dk (stop_container dk reg pid).snd.fst pid).fst.code = 404) ∧
      (∀ e, (stop_and_remove_container dk cid).fst = Except.error e →
        (strContains e ("No such container") = true →
          (stop_container dk reg pid).fst.code = 200 ∧
          dictGet? (stop_container dk reg pid).fst.body ("status") = some (J.s ("warning")) ∧
          (stop_container dk reg pid).snd.fst = dictErase reg pid) ∧
        (strContains e ("No such container") = false →
          (stop_container dk reg pid).fst.code = 500 ∧
          (stop_container dk reg pid).snd.fst = reg))) := by
  refine ⟨?_, ?_⟩
  · intro hg
    constructor <;> simp [stop_container, hd, hg]
  · intro cid hg
    refine ⟨?_, ?_⟩
    · intro hok
      have h1 : (stop_container dk reg pid).snd.fst = dictErase reg pid := by
        simp [stop_container, hd, hg, hok]
      refine ⟨?_, ?_, h1, ?_⟩
      · simp [stop_container, hd, hg, hok]
      · simp [stop_container, hd, hg, hok, dictGet?]
      · rw [h1]
        simp [stop_container, hd, dictGet?_erase_self]
    · intro e herr
      refine ⟨?_, ?_⟩
      · intro hc
        refine ⟨?_, ?_, ?_⟩ <;> simp [stop_container, hd, hg, herr, hc, dictGet?]
      · intro hc
        constructor <;> simp [stop_container, hd, hg, herr, hc]

/-- C4 witness: stopping a registered project whose stop+remove
succeeds answers 200 with status "success", erases the entry, and a
second stop answers 404. -/
theorem C4_witness :
    (stop_container dkRunning [("p1", "c1")] ("p1")).fst.code = 200 ∧
    dictGet? (stop_container dkRunning [("p1", "c1")] ("p1")).fst.body ("status") =
      some (J.s ("success")) ∧
    (stop_container dkRunning [("p1", "c1")] ("p1")).snd.fst =
      dictErase [("p1", "c1")] ("p1") ∧
    (stop_container dkRunning
      (stop_container dkRunning [("p1", "c1")] ("p1")).snd.fst ("p1")).fst.code = 404 :=
  ((C4_stop_semantics dkRunning [("p1", "c1")] ("p1") rfl).2 ("c1") (by decide)).1 rfl

/-! ## Claim C5 -/

/-- C5: `list_containers` returns one record per registered project and
never mutates the registry: the registry after the call equals the
registry before, an entry whose handle fails to inspect is reported
with status "not_found" yet remains present, and an entry whose handle
inspects successfully is reported with its runtime status. -/
theorem C5_list_never_mutates (dk : Docker) (reg : Registry)
    (hd : dk.daemonRunning = true) :
    (list_containers dk reg).snd = reg ∧
    (list_containers dk reg).fst.code = 200 ∧
    (list_containers dk reg).fst.containers.map Prod.fst = reg.map Prod.fst ∧
    (∀ pc : String × String, pc ∈ reg →
      (pc.fst, listEntry dk pc.snd) ∈ (list_containers dk reg).fst.containers) ∧
    (∀ pc : String × String, pc ∈ reg → dk.inspect pc.snd = none →
      dictGet? (listEntry dk pc.snd) ("status") = some (J.s ("not_found")) ∧
      pc ∈ (list_containers dk reg).snd) ∧
    (∀ pc : String × String, pc ∈ reg → ∀ i, dk.inspect pc.snd = some i →
      dictGet? (listEntry dk pc.snd) ("status") = some (J.s i.status)) := by
  refine ⟨?_, ?_, ?_, ?_, ?_, ?_⟩
  · simp [list_containers, hd]
  · simp [list_containers, hd]
  · simp [list_containers, hd, List.map_map, Function.comp]
  · intro pc hpc
    simp only [list_containers, hd]
    simp [List.mem_map]
    exact ⟨pc.fst, pc.snd, hpc, rfl, rfl⟩
  · intro pc hpc hnone
    refine ⟨by simp [listEntry, hnone, dictGet?], ?_⟩
    simpa [list_containers, hd] using hpc
  · intro pc hpc i hins
    simp [listEntry, hins, dictGet?]

/-- C5 witness: a registry with one stale entry is listed with status
"not_found" and is still registered afterwards. -/
theorem C5_witness :
    (list_containers dkStale [("p1", "c1")]).snd = [("p1", "c1")] ∧
    (list_containers dkStale [("p1", "c1")]).fst.code = 200 ∧
    dictGet? (listEntry dkStale ("c1")) ("status") = some (J.s ("not_found")) ∧
    (("p1", "c1") : String × String) ∈ (list_containers dkStale [("p1", "c1")]).snd :=
  ⟨(C5_list_never_mutates dkStale [("p1", "c1")] rfl).1,
   (C5_list_never_mutates dkStale [("p1", "c1")] rfl).2.1,
   ((C5_list_never_mutates dkStale [("p1", "c1")] rfl).2.2.2.2.1 ("p1", "c1")
     (by decide) rfl).1,
   ((C5_list_never_mutates dkStale [("p1", "c1")] rfl).2.2.2.2.1 ("p1", "c1")
     (by decide) rfl).2⟩

/-! ## Claim C6 -/

/-- C6: the environment passed to the container run is the
caller-supplied mapping with `PROJECT_ID` bound to the projectId —
overwriting any caller-supplied `PROJECT_ID` — and every other
caller-supplied pair preserved; on an unregistered project the handler
issues exactly one `docker run` whose argv is built from that merged
environment.  The concrete example: `{"PROJECT_ID": "spoofed", "FOO":
"bar"}` for project "42" merges to PROJECT_ID=42 and FOO=bar. -/
theorem C6_project_id_injection (dk : Docker) (reg : Registry) (pid : String) (b : ReqBody)
    (hd : dk.daemonRunning = true) (hi : dk.baseImageOk = true)
    (hreg : dictGet? reg pid = none) :
    (create_or_run_container dk reg pid b).snd.snd =
      [Eff.ranContainer (buildRunArgv pid
        (dictInsert (envOfField b.environment) ("PROJECT_ID") pid)
        b.ports b.volumes b.command)] ∧
    dictGet? (dictInsert (envOfField b.environment) ("PROJECT_ID") pid) ("PROJECT_ID") =
      some pid ∧
    (∀ k, k ≠ "PROJECT_ID" →
      dictGet? (dictInsert (envOfField b.environment) ("PROJECT_ID") pid) k =
      dictGet? (envOfField b.environment) k) ∧
    dictInsert [("PROJECT_ID", "spoofed"), ("FOO", "bar")] ("PROJECT_ID") ("42") =
      [("PROJECT_ID", "42"), ("FOO", "bar")] := by
  refine ⟨?_, dictGet?_insert_self _ _ _, fun k hk => dictGet?_insert_ne _ _ _ _ hk, by decide⟩
  rw [show create_or_run_container dk reg pid b = fresh_run_step dk reg pid b []
    from by simp [create_or_run_container, hd, hi, hreg]]
  simp only [fresh_run_step, run_container]
  rw [dictInsert_idem]
  cases hro : dk.runOutcome (buildRunArgv pid
      (dictInsert (envOfField b.environment) ("PROJECT_ID") pid)
      b.ports b.volumes b.command) with
  | error e => simp [hi, hro]
  | ok out => simp [hi, hro]

/-- C6 witness: project "42" with a caller environment that tries to
spoof PROJECT_ID. -/
theorem C6_witness :
    (create_or_run_container dkStale [] ("42") bodySpoof).snd.snd =
      [Eff.ranContainer (buildRunArgv ("42")
        (dictInsert (envOfField bodySpoof.environment) ("PROJECT_ID") ("42"))
        bodySpoof.ports bodySpoof.volumes bodySpoof.command)] ∧
    dictGet? (dictInsert (envOfField bodySpoof.environment) ("PROJECT_ID") ("42"))
      ("PROJECT_ID") = some ("42") ∧
    (∀ k, k ≠ "PROJECT_ID" →
      dictGet? (dictInsert (envOfField bodySpoof.environment) ("PROJECT_ID") ("42")) k =
      dictGet? (envOfField bodySpoof.environment) k) ∧
    dictInsert [("PROJECT_ID", "spoofed"), ("FOO", "bar")] ("PROJECT_ID") ("42") =
      [("PROJECT_ID", "42"), ("FOO", "bar")] :=
  C6_project_id_injection dkStale [] ("42") bodySpoof rfl rfl rfl

/-! ## Claim C7 -/

/-- C7 counterexample: the claim asserts every successful response —
including the 200 reused-container response — carries a `project_id`
field, but the 200 body built at app.py lines 463-469 has only status,
message, container_id, container_status and environment: with a
registered running container the call answers 200 and its body has no
`project_id` key. -/
theorem C7_counterexample :
    (create_or_run_container dkRunning [("p1", "c1")] ("p1") bodyEmpty).fst.code = 200 ∧
    hasKey (create_or_run_container dkRunning [("p1", "c1")] ("p1") bodyEmpty).fst.body
      ("project_id") = false := by
  decide

/-- C7 (amended): every response of `create_or_run_container` is a
200, 201 or 500; a 200 (reused or restarted) body carries status,
container_id, container_status and environment (but not project_id); a
201 (created) body carries all five of status, project_id,
container_id, container_status, environment; and a 500 body reports
status "error". -/
theorem C7_success_response_fields (dk : Docker) (reg : Registry) (pid : String)
    (b : ReqBody) :
    ((create_or_run_container dk reg pid b).fst.code = 200 ∨
     (create_or_run_container dk reg pid b).fst.code = 201 ∨
     (create_or_run_container dk reg pid b).fst.code = 500) ∧
    ((create_or_run_container dk reg pid b).fst.code = 200 →
      hasKey (create_or_run_container dk reg pid b).fst.body ("status") = true ∧
      hasKey (create_or_run_container dk reg pid b).fst.body ("container_id") = true ∧
      hasKey (create_or_run_container dk reg pid b).fst.body ("container_status") = true ∧
      hasKey (create_or_run_container dk reg pid b).fst.body ("environment") = true) ∧
    ((create_or_run_container dk reg pid b).fst.code = 201 →
      hasKey (create_or_run_container dk reg pid b).fst.body ("status") = true ∧
      hasKey (create_or_run_container dk reg pid b).fst.body ("project_id") = true ∧
      hasKey (create_or_run_container dk reg pid b).fst.body ("container_id") = true ∧
      hasKey (create_or_run_container dk reg pid b).fst.body ("container_status") = true ∧
      hasKey (create_or_run_container dk reg pid b).fst.body ("environment") = true) ∧
    ((create_or_run_container dk reg pid b).fst.code = 500 →
      dictGet? (create_or_run_container dk reg pid b).fst.body ("status") =
        some (J.s ("error"))) := by
  have hfr : ∀ effs0,
      ((fresh_run_step dk reg pid b effs0).fst.code = 200 ∨
       (fresh_run_step dk reg pid b effs0).fst.code = 201 ∨
       (fresh_run_step dk reg pid b effs0).fst.code = 500) ∧
      ((fresh_run_step dk reg pid b effs0).fst.code = 200 →
        hasKey (fresh_run_step dk reg pid b effs0).fst.body ("status") = true ∧
        hasKey (fresh_run_step dk reg pid b effs0).fst.body ("container_id") = true ∧
        hasKey (fresh_run_step dk reg pid b effs0).fst.body ("container_status") = true ∧
        hasKey (fresh_run_step dk reg pid b effs0).fst.body ("environment") = true) ∧
      ((fresh_run_step dk reg pid b effs0).fst.code = 201 →
        hasKey (fresh_run_step dk reg pid b effs0).fst.body ("status") = true ∧
        hasKey (fresh_run_step dk reg pid b effs0).fst.body ("project_id") = true ∧
        hasKey (fresh_run_step dk reg pid b effs0).fst.body ("container_id") = true ∧
        hasKey (fresh_run_step dk reg pid b effs0).fst.body ("container_status") = true ∧
        hasKey (fresh_run_step dk reg pid b effs0).fst.body ("environment") = true) ∧
      ((fresh_run_step dk reg pid b effs0).fst.code = 500 →
        dictGet? (fresh_run_step dk reg pid b effs0).fst.body ("status") =
          some (J.s ("error"))) := by
    intro effs0
    rcases fresh_run_spec dk reg pid b effs0 with ⟨e, hfst, hsnd⟩ |
      ⟨a, out, hok, hc, hr, hstat, hk1, hk2, hk3, hk4⟩
    · refine ⟨?_, ?_, ?_, ?_⟩ <;> simp [hfst, hasKey, dictGet?]
    · refine ⟨Or.inr (Or.inl hc), ?_, ?_, ?_⟩
      · intro h; rw [hc] at h; exact absurd h (by simp)
      · intro h
        refine ⟨?_, hk1, hk2, hk3, hk4⟩
        simp [hasKey, hstat]
      · intro h; rw [hc] at h; exact absurd h (by simp)
  by_cases hd : dk.daemonRunning = false
  · refine ⟨?_, ?_, ?_, ?_⟩ <;> simp [create_or_run_container, hd, daemonErrorResp,
      hasKey, dictGet?]
  · by_cases hi : dk.baseImageOk = false
    · refine ⟨?_, ?_, ?_, ?_⟩ <;> simp [create_or_run_container, hd, hi, hasKey, dictGet?]
    · cases hg : dictGet? reg pid with
      | none =>
        rw [show create_or_run_container dk reg pid b = fresh_run_step dk reg pid b []
          from by simp [create_or_run_container, hd, hi, hg]]
        exact hfr []
      | some cid =>
        cases hins : dk.inspect cid with
        | none =>
          rw [show create_or_run_container dk reg pid b = fresh_run_step dk reg pid b []
            from by simp [create_or_run_container, hd, hi, hg, hins]]
          exact hfr []
        | some info =>
          by_cases hst : (info.status != "running") = true
          · by_cases hstart : dk.startOk cid = true
            · refine ⟨?_, ?_, ?_, ?_⟩ <;>
                simp [create_or_run_container, hd, hi, hg, hins, hst, hstart,
                  hasKey, dictGet?]
            · rw [show create_or_run_container dk reg pid b =
                  fresh_run_step dk reg pid b [Eff.startedContainer cid]
                from by simp [create_or_run_container, hd, hi, hg, hins, hst, hstart]]
              exact hfr [Eff.startedContainer cid]
          · refine ⟨?_, ?_, ?_, ?_⟩ <;>
              simp [create_or_run_container, hd, hi, hg, hins, hst, hasKey, dictGet?]

/-- C7 witness: the 200 reused-container response carries status,
container_id, container_status and environment. -/
theorem C7_witness :
    hasKey (create_or_run_container dkRunning [("p1", "c1")] ("p1") bodyEmpty).fst.body
      ("status") = true ∧
    hasKey (create_or_run_container dkRunning [("p1", "c1")] ("p1") bodyEmpty).fst.body
      ("container_id") = true ∧
    hasKey (create_or_run_container dkRunning [("p1", "c1")] ("p1") bodyEmpty).fst.body
      ("container_status") = true ∧
    hasKey (create_or_run_container dkRunning [("p1", "c1")] ("p1") bodyEmpty).fst.body
      ("environment") = true :=
  (C7_success_response_fields dkRunning [("p1", "c1")] ("p1") bodyEmpty).2.1 (by decide)

end DockerMgmt
